import Mathlib

/-!
Verification of the `ramen` YAML → argument-parser translation layer
(`src/parser.rs`).  The generic document tree (`yaml_rust::Yaml`) and the
final specification handed to the external engine (`clap::Command`) are
modelled as plain inductive types; every function of the core is embedded
as an executable Lean definition mirroring the Rust source line by line.
-/

namespace Ramen

/-- Model of the external `yaml_rust::Yaml` document-tree type.  A hash is
an ordered association list (yaml-rust uses a linked hash map whose keys are
themselves `Yaml` nodes). `badValue` models `Yaml::BadValue`, returned by
indexing on absence or kind mismatch. -/
inductive Yaml where
  | real (s : String)
  | int (n : Int)
  | str (s : String)
  | bool (b : Bool)
  | array (items : List Yaml)
  | hash (entries : List (Yaml × Yaml))
  | null
  | badValue

/-- `Yaml::as_str`: `Some` exactly on the `String` variant. -/
def Yaml.as_str : Yaml → Option String
  | .str s => some s
  | _ => none

/-- `Yaml::as_vec`: `Some` exactly on the `Array` variant. -/
def Yaml.as_vec : Yaml → Option (List Yaml)
  | .array items => some items
  | _ => none

/-- Lookup of a string key in a hash's entry list: the map's `get` compares
the full `Yaml` key against `Yaml::String(key)`. -/
def lookupString : List (Yaml × Yaml) → String → Option Yaml
  | [], _ => none
  | (Yaml.str s, v) :: rest, key => if s = key then some v else lookupString rest key
  | _ :: rest, key => lookupString rest key

/-- `doc[key]` for a string key (`Index<&str> for Yaml`): hash lookup of
`Yaml::String(key)`, with `Yaml::BadValue` on a non-hash node or a missing
key. -/
def Yaml.index (doc : Yaml) (key : String) : Yaml :=
  match doc with
  | .hash entries => (lookupString entries key).getD .badValue
  | _ => .badValue

/-- `[a-zA-Z]` of the pattern `REG_SHORT_LONG_ARG_NAME`. -/
def isAlphaChar (c : Char) : Bool :=
  (97 ≤ c.toNat && c.toNat ≤ 122) || (65 ≤ c.toNat && c.toNat ≤ 90)

/-- `[0-9]` of the pattern. -/
def isDigitChar (c : Char) : Bool :=
  48 ≤ c.toNat && c.toNat ≤ 57

/-- `[a-zA-Z0-9-]` of the pattern. -/
def isLongTailChar (c : Char) : Bool :=
  isAlphaChar c || isDigitChar c || c = '-'

/-- `extract_short_long_name`: match the haystack against the anchored
pattern `REG_SHORT_LONG_ARG_NAME`, that is
`^-(?P<short>[a-zA-Z])(slash)--(?P<long>[a-zA-Z][a-zA-Z0-9-]*)$`, and
return the two captures.  The pattern is fixed, so the match is embedded
structurally: a hyphen, one letter (the `short` capture), a slash, two
hyphens, then a letter followed by letters/digits/hyphens (the `long`
capture), consuming the whole string. -/
def extract_short_long_name (haystack : String) : Option (String × String) :=
  match haystack.data with
  | '-' :: c :: '/' :: '-' :: '-' :: d :: rest =>
      if isAlphaChar c && isAlphaChar d && rest.all isLongTailChar then
        some (String.mk [c], String.mk (d :: rest))
      else
        none
  | _ => none

/-- `struct Argument { doc: Yaml }`. -/
structure Argument where
  doc : Yaml

/-- `Argument::bare_name`: `self.doc.as_str()`. -/
def Argument.bare_name (a : Argument) : Option String :=
  a.doc.as_str

/-- `Argument::name`: `bare_name().or(doc["name"].as_str()).unwrap_or_default()`. -/
def Argument.name (a : Argument) : String :=
  (a.bare_name.or ((a.doc.index "name").as_str)).getD ""

/-- `str::chars().next()`: the first character, if any. -/
def firstChar (s : String) : Option Char :=
  s.data.head?

/-- `Argument::short`: for a bare scalar, run the pattern on the text and
take the first character of the short capture; otherwise the first
character of the `short` field if it is a string. -/
def Argument.short (a : Argument) : Option Char :=
  match a.bare_name with
  | some name => ((extract_short_long_name name).map (fun p => firstChar p.1)).join
  | none => (((a.doc.index "short").as_str).map firstChar).join

/-- `Argument::long`: for a bare scalar, the long capture of the pattern;
otherwise the `long` field if it is a string. -/
def Argument.long (a : Argument) : Option String :=
  match a.bare_name with
  | some name => (extract_short_long_name name).map (fun p => p.2)
  | none => (a.doc.index "long").as_str

/-- `Argument::type`: `doc["type"].as_str().unwrap_or("string")`. -/
def Argument.type (a : Argument) : String :=
  ((a.doc.index "type").as_str).getD "string"

/-- `Argument::default`: `doc["default"].as_str().unwrap_or_default()`. -/
def Argument.default (a : Argument) : String :=
  ((a.doc.index "default").as_str).getD ""

/-- `Argument::select`: the `select` field as a sequence, each element read
as a string with empty-string fallback. -/
def Argument.select (a : Argument) : Option (List String) :=
  ((a.doc.index "select").as_vec).map (fun xs => xs.map (fun v => v.as_str.getD ""))

/-- `struct ArgumentParser { doc: Yaml }`. -/
structure ArgumentParser where
  doc : Yaml

/-- `ArgumentParser::version`: `doc["version"].as_str().unwrap_or_default()`. -/
def ArgumentParser.version (p : ArgumentParser) : String :=
  ((p.doc.index "version").as_str).getD ""

/-- `ArgumentParser::program`: `doc["program"].as_str().unwrap_or_default()`. -/
def ArgumentParser.program (p : ArgumentParser) : String :=
  ((p.doc.index "program").as_str).getD ""

/-- `ArgumentParser::about`: `doc["about"].as_str().unwrap_or_default()`. -/
def ArgumentParser.about (p : ArgumentParser) : String :=
  ((p.doc.index "about").as_str).getD ""

/-- `ArgumentParser::args`: the `args` value as a sequence, each element
wrapped into an `Argument` (cloned, hence independent), or empty. -/
def ArgumentParser.args (p : ArgumentParser) : List Argument :=
  (((p.doc.index "args").as_vec).map (fun xs => xs.map Argument.mk)).getD []

/-- The error taxonomy of `parser.rs`.  `ParseYaml` wraps the scanner's
diagnostic (modelled as the message string). -/
inductive Error where
  | ParseYaml (msg : String)
  | NoDocs
  | MultiDocs
deriving Repr, DecidableEq

/-- `validate_root_docs`: exactly one root document must be present. -/
def validate_root_docs (docs : List Yaml) : Except Error Unit :=
  if docs.length = 0 then
    .error .NoDocs
  else if docs.length > 1 then
    .error .MultiDocs
  else
    .ok ()

/-- One flag definition of the final specification handed to the external
engine: `Arg::new(name).short(short)` plus the conditional `.long(long)`. -/
structure ClapArg where
  name : String
  short : Option Char
  long : Option String
deriving Repr, DecidableEq

/-- The final specification handed to the external engine:
`Command::new(program).about(about)` plus its ordered flag definitions. -/
structure ClapCommand where
  name : String
  about : String
  args : List ClapArg
deriving Repr, DecidableEq

/-- The per-argument body of the loop in `parse`. -/
def buildArg (a : Argument) : ClapArg :=
  { name := a.name, short := a.short, long := a.long }

/-- The specification `parse` assembles from the sole validated document. -/
def buildCommand (p : ArgumentParser) : ClapCommand :=
  { name := p.program, about := p.about, args := p.args.map buildArg }

/-- `parse`: the external deserializer's outcome is the argument
(`Except String (List Yaml)` models `YamlLoader::load_from_str`, whose
`ScanError` propagates as `ParseYaml` via `#[from]`).  On success the root
documents are validated, the sole document is removed and wrapped, and the
assembled specification is handed over (modelled as the `ok` value). -/
def parse (loaded : Except String (List Yaml)) : Except Error ClapCommand :=
  match loaded with
  | .error e => .error (.ParseYaml e)
  | .ok docs =>
      match validate_root_docs docs with
      | .error e => .error e
      | .ok () => .ok (buildCommand (ArgumentParser.mk (docs.headD .badValue)))

/-- Transcription of the spec's description of the anchored pattern, for
comparison with `extract_short_long_name`: the text is a hyphen, a single
ASCII letter (the short capture), a slash and two hyphens, then the long
capture, which is a letter followed by any number of letters, digits, or
hyphens. -/
def compactPatternSpec (text shortName longName : String) : Prop :=
  text = "-" ++ shortName ++ "/--" ++ longName ∧
  (∃ c, shortName = String.mk [c] ∧ isAlphaChar c) ∧
  (∃ d rest, longName = String.mk (d :: rest) ∧ isAlphaChar d ∧ rest.all isLongTailChar)

/-! ### Helper lemmas -/

/-- Characterisation of `extract_short_long_name` at the character-list
level. -/
theorem extract_eq_some_iff (text sh lo : String) :
    extract_short_long_name text = some (sh, lo) ↔
    ∃ c d rest, text.data = '-' :: c :: '/' :: '-' :: '-' :: d :: rest ∧
      isAlphaChar c ∧ isAlphaChar d ∧ rest.all isLongTailChar ∧
      sh = String.mk [c] ∧ lo = String.mk (d :: rest) := by
  constructor
  · intro h
    unfold extract_short_long_name at h
    split at h
    · rename_i c d rest heq
      split at h
      · rename_i hcond
        simp only [Option.some.injEq, Prod.mk.injEq] at h
        simp only [Bool.and_eq_true] at hcond
        exact ⟨c, d, rest, heq, hcond.1.1, hcond.1.2, hcond.2, h.1.symm, h.2.symm⟩
      · exact absurd h (by simp)
    · exact absurd h (by simp)
  · rintro ⟨c, d, rest, hdata, hc, hd, hrest, rfl, rfl⟩
    unfold extract_short_long_name
    rw [hdata]
    simp [hc, hd, hrest]

/-- A string equals the concatenation of the compact-pattern pieces exactly
when its character list has the matched shape. -/
theorem compact_concat_data (text : String) (c d : Char) (rest : List Char) :
    text = "-" ++ String.mk [c] ++ "/--" ++ String.mk (d :: rest) ↔
    text.data = '-' :: c :: '/' :: '-' :: '-' :: d :: rest := by
  constructor
  · rintro rfl
    simp [String.data_append]
  · intro h
    apply String.ext
    simpa [String.data_append] using h

/-! ### Claims -/

/-- C1: `validate_root_docs` fails with `NoDocs` on an empty document
sequence, fails with `MultiDocs` on two or more documents, and succeeds
producing no value exactly when there is one document. -/
theorem validate_root_docs_trichotomy (docs : List Yaml) :
    (validate_root_docs docs = .error .NoDocs ↔ docs.length = 0) ∧
    (validate_root_docs docs = .error .MultiDocs ↔ 2 ≤ docs.length) ∧
    (validate_root_docs docs = .ok () ↔ docs.length = 1) := by
  rcases docs with _ | ⟨a, _ | ⟨b, t⟩⟩ <;>
    simp [validate_root_docs]

/-- C2: `extract_short_long_name text` returns the pair `(short, long)`
exactly when `text` fully matches the anchored pattern — a hyphen, a single
ASCII letter, the literal slash-hyphen-hyphen, then a letter followed by
letters, digits, or hyphens — with the two captures returned verbatim; on
any non-matching text it returns no value. -/
theorem extract_short_long_name_spec (text sh lo : String) :
    extract_short_long_name text = some (sh, lo) ↔ compactPatternSpec text sh lo := by
  rw [extract_eq_some_iff]
  constructor
  · rintro ⟨c, d, rest, hdata, hc, hd, hrest, rfl, rfl⟩
    exact ⟨(compact_concat_data text c d rest).mpr hdata, ⟨c, rfl, hc⟩,
      ⟨d, rest, rfl, hd, hrest⟩⟩
  · rintro ⟨htext, ⟨c, rfl, hc⟩, ⟨d, rest, rfl, hd, hrest⟩⟩
    exact ⟨c, d, rest, (compact_concat_data text c d rest).mp htext, hc, hd, hrest, rfl, rfl⟩

/-- C3: for a bare-form entry (plain text scalar), `short` and `long` are
computed solely from running name inference on the bare text; concretely,
the text `-c∕--count` yields short `c` and long `count`, while `-c∕count`
and `-co∕--count` yield neither (the slash is written `∕` here to keep the
comment well formed; the theorem uses the ASCII text). -/
theorem bare_short_long_from_inference :
    (∀ t : String,
      (Argument.mk (.str t)).bare_name = some t ∧
      (Argument.mk (.str t)).short =
        ((extract_short_long_name t).map (fun p => firstChar p.1)).join ∧
      (Argument.mk (.str t)).long = (extract_short_long_name t).map (fun p => p.2)) ∧
    (Argument.mk (.str "-c/--count")).short = some 'c' ∧
    (Argument.mk (.str "-c/--count")).long = some "count" ∧
    (Argument.mk (.str "-c/count")).short = none ∧
    (Argument.mk (.str "-c/count")).long = none ∧
    (Argument.mk (.str "-co/--count")).short = none ∧
    (Argument.mk (.str "-co/--count")).long = none := by
  refine ⟨fun t => ⟨rfl, rfl, rfl⟩, ?_, ?_, ?_, ?_, ?_, ?_⟩ <;> decide

/-- C10: for a bare-form entry, `short` is present if and only if `long`
is present — the single pattern match decides both, and a successful match
always yields a one-character short capture. -/
theorem bare_short_iff_long (t : String) :
    (Argument.mk (.str t)).short.isSome ↔ (Argument.mk (.str t)).long.isSome := by
  show (((extract_short_long_name t).map (fun p => firstChar p.1)).join).isSome ↔
    ((extract_short_long_name t).map (fun p => p.2)).isSome
  cases h : extract_short_long_name t with
  | none => simp
  | some p =>
      obtain ⟨c, d, rest, _, _, _, _, hsh, _⟩ := (extract_eq_some_iff t p.1 p.2).mp (by simpa using h)
      simp [hsh, firstChar]

/-- C4: `name` returns the bare scalar text when the entry is a plain
scalar, otherwise the structured `name` field when it is a string,
otherwise the empty string; `bare_name` is present exactly when the node
is a plain text scalar. -/
theorem name_resolution (doc : Yaml) :
    (Argument.mk doc).bare_name = doc.as_str ∧
    (∀ t, doc = .str t → (Argument.mk doc).name = t) ∧
    (∀ s, doc.as_str = none → (doc.index "name").as_str = some s →
      (Argument.mk doc).name = s) ∧
    (doc.as_str = none → (doc.index "name").as_str = none →
      (Argument.mk doc).name = "") ∧
    ((Argument.mk doc).bare_name.isSome ↔ ∃ t, doc = .str t) := by
  refine ⟨rfl, ?_, ?_, ?_, ?_⟩
  · rintro t rfl
    rfl
  · intro s h1 h2
    simp [Argument.name, Argument.bare_name, h1, h2]
  · intro h1 h2
    simp [Argument.name, Argument.bare_name, h1, h2]
  · cases doc <;> simp [Argument.bare_name, Yaml.as_str]

/-- Witness for C4 at concrete entries: a bare scalar `SRC`, a mapping
with `name: DEST`, and an empty mapping. -/
theorem name_resolution_witness :
    (Argument.mk (.str "SRC")).name = "SRC" ∧
    (Argument.mk (.hash [(.str "name", .str "DEST")])).name = "DEST" ∧
    (Argument.mk (.hash [])).name = "" :=
  ⟨(name_resolution (.str "SRC")).2.1 "SRC" rfl,
   (name_resolution (.hash [(.str "name", .str "DEST")])).2.2.1 "DEST" rfl rfl,
   (name_resolution (.hash [])).2.2.2.1 rfl rfl⟩

/-- C5: `parse` fails with `ParseYaml` exactly when the deserializer
fails, and otherwise fails only with `NoDocs` (zero documents) or
`MultiDocs` (two or more); whenever deserialization yields exactly one
document the whole remaining pipeline is total and produces the assembled
specification, and on any failure no specification is produced at all. -/
theorem parse_failure_surface (loaded : Except String (List Yaml)) :
    (∀ m, loaded = .error m → parse loaded = .error (.ParseYaml m)) ∧
    (∀ docs, loaded = .ok docs → docs.length = 1 →
      parse loaded = .ok (buildCommand (ArgumentParser.mk (docs.headD .badValue)))) ∧
    (∀ e, parse loaded = .error e →
      (∃ m, e = .ParseYaml m ∧ loaded = .error m) ∨
      (e = .NoDocs ∧ loaded = .ok []) ∨
      (e = .MultiDocs ∧ ∃ docs, loaded = .ok docs ∧ 2 ≤ docs.length)) := by
  refine ⟨?_, ?_, ?_⟩
  · rintro m rfl
    rfl
  · rintro docs rfl hlen
    rcases docs with _ | ⟨a, _ | ⟨b, t⟩⟩
    · simp at hlen
    · rfl
    · simp at hlen
  · intro e he
    rcases loaded with m | docs
    · left
      cases he
      exact ⟨m, rfl, rfl⟩
    · rcases docs with _ | ⟨a, _ | ⟨b, t⟩⟩
      · right; left
        cases he
        exact ⟨rfl, rfl⟩
      · exact absurd he (by simp [parse, validate_root_docs])
      · right; right
        have h2 : Error.MultiDocs = e := by
          simpa [parse, validate_root_docs] using he
        exact ⟨h2.symm, a :: b :: t, rfl, by simp⟩

/-- Witness for C5 at concrete inputs: a scanner failure, a one-document
input, and zero- and two-document inputs. -/
theorem parse_failure_surface_witness :
    parse (.error "boom") = .error (.ParseYaml "boom") ∧
    parse (.ok [Yaml.null]) = .ok (buildCommand (ArgumentParser.mk Yaml.null)) ∧
    ((∃ m, Error.NoDocs = Error.ParseYaml m ∧
        (Except.ok ([] : List Yaml) : Except String (List Yaml)) = .error m) ∨
      (Error.NoDocs = Error.NoDocs ∧
        (Except.ok ([] : List Yaml) : Except String (List Yaml)) = .ok []) ∨
      (Error.NoDocs = Error.MultiDocs ∧ ∃ docs,
        (Except.ok ([] : List Yaml) : Except String (List Yaml)) = .ok docs ∧
          2 ≤ docs.length)) :=
  ⟨(parse_failure_surface (.error "boom")).1 "boom" rfl,
   (parse_failure_surface (.ok [Yaml.null])).2.1 [Yaml.null] rfl rfl,
   (parse_failure_surface (.ok [])).2.2 Error.NoDocs rfl⟩

/-- C6: `version`, `program` and `about` return the string at their key
or the empty string when the key is absent or not a string; `args`
returns the sequence at `args` with each element wrapped into its own
`Argument`, or the empty sequence when `args` is absent or not a
sequence. -/
theorem accessor_defaults (doc : Yaml) :
    (∀ s, (doc.index "version").as_str = some s → (ArgumentParser.mk doc).version = s) ∧
    ((doc.index "version").as_str = none → (ArgumentParser.mk doc).version = "") ∧
    (∀ s, (doc.index "program").as_str = some s → (ArgumentParser.mk doc).program = s) ∧
    ((doc.index "program").as_str = none → (ArgumentParser.mk doc).program = "") ∧
    (∀ s, (doc.index "about").as_str = some s → (ArgumentParser.mk doc).about = s) ∧
    ((doc.index "about").as_str = none → (ArgumentParser.mk doc).about = "") ∧
    (∀ xs, (doc.index "args").as_vec = some xs →
      (ArgumentParser.mk doc).args = xs.map Argument.mk) ∧
    ((doc.index "args").as_vec = none → (ArgumentParser.mk doc).args = []) := by
  refine ⟨?_, ?_, ?_, ?_, ?_, ?_, ?_, ?_⟩ <;> intros <;>
    simp [ArgumentParser.version, ArgumentParser.program, ArgumentParser.about,
      ArgumentParser.args, *]

/-- Witness for C6: the spec's example document with `program: hello` and
no other keys. -/
theorem accessor_defaults_witness :
    (ArgumentParser.mk (.hash [(.str "program", .str "hello")])).program = "hello" ∧
    (ArgumentParser.mk (.hash [(.str "program", .str "hello")])).version = "" ∧
    (ArgumentParser.mk (.hash [(.str "program", .str "hello")])).about = "" ∧
    (ArgumentParser.mk (.hash [(.str "program", .str "hello")])).args = [] :=
  ⟨(accessor_defaults (.hash [(.str "program", .str "hello")])).2.2.1 "hello" rfl,
   (accessor_defaults (.hash [(.str "program", .str "hello")])).2.1 rfl,
   (accessor_defaults (.hash [(.str "program", .str "hello")])).2.2.2.2.2.1 rfl,
   (accessor_defaults (.hash [(.str "program", .str "hello")])).2.2.2.2.2.2.2 rfl⟩

/-- C7: `type` returns the `type` field whenever it is a string — any
value passes through unvalidated — and exactly `"string"` when absent;
`default` returns the `default` field or exactly the empty string. -/
theorem type_default_fields (doc : Yaml) :
    (∀ s, (doc.index "type").as_str = some s → (Argument.mk doc).type = s) ∧
    ((doc.index "type").as_str = none → (Argument.mk doc).type = "string") ∧
    (∀ s, (doc.index "default").as_str = some s → (Argument.mk doc).default = s) ∧
    ((doc.index "default").as_str = none → (Argument.mk doc).default = "") := by
  refine ⟨?_, ?_, ?_, ?_⟩ <;> intros <;>
    simp [Argument.type, Argument.default, *]

/-- Witness for C7: an unrecognized `type` value passes through, and both
fields default on an empty mapping. -/
theorem type_default_fields_witness :
    (Argument.mk (.hash [(.str "type", .str "garbage")])).type = "garbage" ∧
    (Argument.mk (.hash [])).type = "string" ∧
    (Argument.mk (.hash [(.str "default", .str "7")])).default = "7" ∧
    (Argument.mk (.hash [])).default = "" :=
  ⟨(type_default_fields (.hash [(.str "type", .str "garbage")])).1 "garbage" rfl,
   (type_default_fields (.hash [])).2.1 rfl,
   (type_default_fields (.hash [(.str "default", .str "7")])).2.2.1 "7" rfl,
   (type_default_fields (.hash [])).2.2.2 rfl⟩

/-- C8: for a structured-form entry (not a plain scalar), `short` is the
first character of the `short` field when that field is a string — a
longer field is silently truncated to its first character — and `long` is
the `long` field verbatim; both are absent when their field is absent. -/
theorem structured_short_long (doc : Yaml) (hbare : doc.as_str = none) :
    (∀ s, (doc.index "short").as_str = some s →
      (Argument.mk doc).short = s.data.head?) ∧
    ((doc.index "short").as_str = none → (Argument.mk doc).short = none) ∧
    (∀ s, (doc.index "long").as_str = some s → (Argument.mk doc).long = some s) ∧
    ((doc.index "long").as_str = none → (Argument.mk doc).long = none) := by
  refine ⟨?_, ?_, ?_, ?_⟩ <;> intros <;>
    simp [Argument.short, Argument.long, Argument.bare_name, firstChar, *]

/-- Witness for C8: a mapping whose `short` field is the two-character
string `ab` (truncated to `a`) and whose `long` field is `count`, and an
empty mapping where both are absent. -/
theorem structured_short_long_witness :
    (Argument.mk (.hash [(.str "short", .str "ab"), (.str "long", .str "count")])).short
      = some 'a' ∧
    (Argument.mk (.hash [(.str "short", .str "ab"), (.str "long", .str "count")])).long
      = some "count" ∧
    (Argument.mk (.hash [])).short = none ∧
    (Argument.mk (.hash [])).long = none :=
  ⟨(structured_short_long (.hash [(.str "short", .str "ab"), (.str "long", .str "count")])
      rfl).1 "ab" rfl,
   (structured_short_long (.hash [(.str "short", .str "ab"), (.str "long", .str "count")])
      rfl).2.2.1 "count" rfl,
   (structured_short_long (.hash []) rfl).2.1 rfl,
   (structured_short_long (.hash []) rfl).2.2.2 rfl⟩

/-- C9: `select` returns the `select` field as a sequence of strings when
it is present as a sequence, every non-string element replaced by the
empty string, and returns no value when the field yields no sequence (in
particular when it is absent). -/
theorem select_field (doc : Yaml) :
    (∀ xs, (doc.index "select").as_vec = some xs →
      (Argument.mk doc).select = some (xs.map (fun v => v.as_str.getD ""))) ∧
    ((doc.index "select").as_vec = none → (Argument.mk doc).select = none) := by
  refine ⟨?_, ?_⟩ <;> intros <;> simp [Argument.select, *]

/-- Witness for C9: a `select` sequence with a non-string element degrades
that element to the empty string; an empty mapping has no `select`. -/
theorem select_field_witness :
    (Argument.mk (.hash [(.str "select", .array [.str "a", .int 3])])).select
      = some ["a", ""] ∧
    (Argument.mk (.hash [])).select = none :=
  ⟨(select_field (.hash [(.str "select", .array [.str "a", .int 3])])).1
      [.str "a", .int 3] rfl,
   (select_field (.hash [])).2 rfl⟩

end Ramen
